import Mathlib

/-
Verification of the weather-data-pipeline alert core.

Shallow embedding of the alert decision and deduplication logic:
  - `src/src/alert_engine.py`  (AlertEngine.check_and_send_alerts,
    AlertEngine._process_alert, AlertEngine._send_email_alert)
  - `src/src/database.py`      (Database.get_recent_alerts, insert_alert_log)
  - `src/src/config.py`        (Config, Config.validate)
  - `src/main.py`              (run_pipeline)

Numbers (Python floats used for readings and thresholds) are modelled as
rationals; time (UTC timestamps) as a rational number of hours.  External
effects (database inserts, SMTP sends) are modelled as explicit event
traces, with collaborator outcomes (query results, send success) passed in
as oracle arguments.
-/

namespace WeatherPipeline

/-- Alert kinds: the fixed enumeration of `alert["type"]` strings produced
by `AlertEngine.check_and_send_alerts`. -/
inductive AlertType where
  | HEAVY_RAIN
  | STRONG_WIND
  | EXTREME_COLD
  | EXTREME_HEAT
deriving DecidableEq

/-- Severity levels (the code produces only MEDIUM and HIGH; the database
doc comment lists LOW, MEDIUM, HIGH, CRITICAL). -/
inductive Severity where
  | LOW
  | MEDIUM
  | HIGH
  | CRITICAL
deriving DecidableEq

/-- A Python value stored under a key of the weather dict: either `None` or
a number.  `null` models Python `None`; `num q` a float. -/
inductive PyVal where
  | null
  | num (q : ℚ)
deriving DecidableEq

/-- Python truthiness of such a value: `None` is falsy, a float is truthy
iff it is nonzero. -/
def PyVal.truthy : PyVal → Bool
  | .null => false
  | .num q => q != 0

/-- The `weather_data` dict built by `WeatherAPIClient.get_current_weather`.
A field of value `Option.none` means the key is absent from the dict;
`some .null` means the key is present with value `None`.  `dict.get(k)`
is `(field).getD .null` and `dict.get(k, 0)` is `(field).getD (.num 0)`. -/
structure WeatherData where
  timestamp : ℚ
  temperature : Option PyVal
  precipitation : Option PyVal
  wind_speed : Option PyVal
  humidity : Option PyVal
  weather_code : Option PyVal
deriving DecidableEq

/-- The configuration object (`src/src/config.py`), one field per
environment variable read in `Config.__init__`. -/
structure Config where
  DATABASE_URL : String
  EMAIL_FROM : String
  EMAIL_PASSWORD : String
  EMAIL_TO : String
  LOCATION : String
  LATITUDE : ℚ
  LONGITUDE : ℚ
  HEAVY_RAIN_THRESHOLD : ℚ
  STRONG_WIND_THRESHOLD : ℚ
  EXTREME_TEMP_LOW : ℚ
  EXTREME_TEMP_HIGH : ℚ
  SCHEDULE_INTERVAL_MINUTES : ℤ
  ALERT_COOLDOWN_HOURS : ℤ

/-- `Config.validate`: `all(required)` over the four required strings;
Python string truthiness is non-emptiness.  No threshold is examined. -/
def Config.validate (c : Config) : Bool :=
  decide (c.DATABASE_URL ≠ "") && decide (c.EMAIL_FROM ≠ "")
    && decide (c.EMAIL_PASSWORD ≠ "") && decide (c.EMAIL_TO ≠ "")

/-- An alert condition dict `{type, severity, message}` appended to the
`alerts` list in `check_and_send_alerts`. -/
structure AlertCondition where
  kind : AlertType
  severity : Severity
  message : String
deriving DecidableEq

/-- Message f-string of the HEAVY_RAIN branch (float rendering abstracted
to rational rendering). -/
def rainMsg (p : ℚ) (cfg : Config) : String :=
  let t := cfg.HEAVY_RAIN_THRESHOLD
  s!"Heavy rainfall detected: {p} mm/h (Threshold: {t} mm/h)"

/-- Message f-string of the STRONG_WIND branch. -/
def windMsg (w : ℚ) (cfg : Config) : String :=
  let t := cfg.STRONG_WIND_THRESHOLD
  s!"Strong wind detected: {w} km/h (Threshold: {t} km/h)"

/-- Message f-string of the EXTREME_COLD branch. -/
def coldMsg (tv : ℚ) (cfg : Config) : String :=
  let t := cfg.EXTREME_TEMP_LOW
  s!"Extreme cold detected: {tv}°C (Threshold: {t}°C)"

/-- Message f-string of the EXTREME_HEAT branch. -/
def heatMsg (tv : ℚ) (cfg : Config) : String :=
  let t := cfg.EXTREME_TEMP_HIGH
  s!"Extreme heat detected: {tv}°C (Threshold: {t}°C)"

/-- Heavy-rain check (alert_engine.py lines 31-40):
`precipitation = weather_data.get("precipitation", 0)` followed by
`if precipitation and precipitation >= self.config.HEAVY_RAIN_THRESHOLD`.
The `and` guard is Python truthiness: zero (and `None`) never passes. -/
def rainAlerts (wd : WeatherData) (cfg : Config) : List AlertCondition :=
  match wd.precipitation.getD (.num 0) with
  | .null => []
  | .num p =>
    if p ≠ 0 ∧ p ≥ cfg.HEAVY_RAIN_THRESHOLD then
      [⟨.HEAVY_RAIN, .HIGH, rainMsg p cfg⟩]
    else []

/-- Strong-wind check (alert_engine.py lines 42-51), same shape as the
heavy-rain check. -/
def windAlerts (wd : WeatherData) (cfg : Config) : List AlertCondition :=
  match wd.wind_speed.getD (.num 0) with
  | .null => []
  | .num w =>
    if w ≠ 0 ∧ w ≥ cfg.STRONG_WIND_THRESHOLD then
      [⟨.STRONG_WIND, .HIGH, windMsg w cfg⟩]
    else []

/-- Temperature checks (alert_engine.py lines 53-71):
`temperature = weather_data.get("temperature")`, guarded by
`is not None`, then `if t <= LOW ... elif t >= HIGH ...`. -/
def tempAlerts (wd : WeatherData) (cfg : Config) : List AlertCondition :=
  match wd.temperature.getD .null with
  | .null => []
  | .num t =>
    if t ≤ cfg.EXTREME_TEMP_LOW then
      [⟨.EXTREME_COLD, .MEDIUM, coldMsg t cfg⟩]
    else if t ≥ cfg.EXTREME_TEMP_HIGH then
      [⟨.EXTREME_HEAT, .HIGH, heatMsg t cfg⟩]
    else []

/-- The `alerts` list built by `AlertEngine.check_and_send_alerts`
(alert_engine.py lines 29-71): the three checks append in this order. -/
def computeAlerts (wd : WeatherData) (cfg : Config) : List AlertCondition :=
  rainAlerts wd cfg ++ windAlerts wd cfg ++ tempAlerts wd cfg

/-- Whether the evaluation result contains a condition of the given kind. -/
def containsKind (k : AlertType) (l : List AlertCondition) : Bool :=
  l.any fun a => decide (a.kind = k)

/-- A row of the `alert_log` table (database.py: `insert_alert_log`
columns).  Timestamps are rational hours on the UTC timeline. -/
structure AlertLogEntry where
  timestamp : ℚ
  alert_type : AlertType
  severity : Severity
  message : String
  email_sent : Bool
deriving DecidableEq

/-- The SQL query of `Database.get_recent_alerts` (database.py lines
149-156): rows of the given alert_type whose timestamp satisfies
`timestamp > NOW() - INTERVAL hours`.  `ORDER BY timestamp DESC` only
permutes the rows and is not modelled (only emptiness is consumed). -/
def recentAlertsQuery (table : List AlertLogEntry) (alert_type : AlertType)
    (hours : ℤ) (now : ℚ) : List AlertLogEntry :=
  table.filter fun e =>
    decide (e.alert_type = alert_type) && decide (now - (hours : ℚ) < e.timestamp)

/-- `Database.get_recent_alerts` error handling (database.py lines
145-164): the query result on success, and the empty list when the query
raises. -/
def get_recent_alerts (queryResult : Except String (List AlertLogEntry)) :
    List AlertLogEntry :=
  match queryResult with
  | .ok rows => rows
  | .error _ => []

/-- Observable collaborator calls made by the dispatcher: an SMTP send
attempt (`_send_email_alert`) or a `Database.insert_alert_log` call with
its arguments. -/
inductive Event where
  | notifierSend (a : AlertCondition)
  | insertLog (alert_type : AlertType) (severity : Severity)
      (message : String) (email_sent : Bool)
deriving DecidableEq

/-- Whether an event is an `insert_alert_log` call. -/
def Event.isInsert : Event → Bool
  | .insertLog _ _ _ _ => true
  | _ => false

/-- Whether an event is a notifier send attempt. -/
def Event.isSend : Event → Bool
  | .notifierSend _ => true
  | _ => false

/-- Whether a trace contains a notifier send attempt. -/
def notified (evs : List Event) : Bool :=
  evs.any Event.isSend

/-- `AlertEngine._process_alert` (alert_engine.py lines 77-108) as an
event trace.  `recent_alerts` is the list returned by
`get_recent_alerts`; Python `if recent_alerts:` is list truthiness
(non-emptiness).  `send_result` is the boolean returned by
`_send_email_alert`, which catches every exception and returns False
(lines 110-158), so it is passed in as an oracle. -/
def process_alert (alert : AlertCondition) (recent_alerts : List AlertLogEntry)
    (send_result : Bool) : List Event :=
  match recent_alerts with
  | _ :: _ =>
    [.insertLog alert.kind alert.severity alert.message false]
  | [] =>
    [.notifierSend alert,
     .insertLog alert.kind alert.severity alert.message send_result]

/-- The dispatch loop of `check_and_send_alerts` (alert_engine.py lines
73-75): each computed alert is processed in order.  `recent` is the
database's answer to the per-kind cooldown query and `send` the SMTP
outcome, both oracles for the external collaborators. -/
def check_and_send_alerts (wd : WeatherData) (cfg : Config)
    (recent : AlertType → List AlertLogEntry)
    (send : AlertCondition → Bool) : List Event :=
  (computeAlerts wd cfg).flatMap fun a => process_alert a (recent a.kind) (send a)

/-- Steps of one pipeline cycle observable at the collaborator boundary. -/
inductive PipeEvent where
  | storeReading (wd : WeatherData)
  | alertEvent (e : Event)
deriving DecidableEq

/-- `run_pipeline` (main.py lines 26-75).  `fetch` is the value returned
by `WeatherAPIClient.get_current_weather` (`none` models the `None`
returned on any request failure, api_client.py lines 59-68); `storeOk`
the boolean from `insert_weather_data`.  Returns the cycle's boolean
result together with its event trace; the Python `except` wrapper makes
the function total (it reports failure by returning False, never by
terminating the process). -/
def run_pipeline (cfg : Config) (fetch : Option WeatherData) (storeOk : Bool)
    (recent : AlertType → List AlertLogEntry)
    (send : AlertCondition → Bool) : Bool × List PipeEvent :=
  match fetch with
  | none => (false, [])
  | some wd =>
    if storeOk then
      (true, .storeReading wd ::
        (check_and_send_alerts wd cfg recent send).map PipeEvent.alertEvent)
    else
      (false, [.storeReading wd])

/-- Concrete configuration with the default thresholds of `config.py`
(rain 10.0, wind 50.0, temperature 0.0 and 35.0, cooldown 6 h). -/
def cfg0 : Config :=
  ⟨"db", "from", "pw", "to", "Vancouver", 49, -123, 10, 50, 0, 35, 60, 6⟩

/-- Concrete configuration with a heavy-rain threshold of 0. -/
def cfgZero : Config :=
  ⟨"db", "from", "pw", "to", "Vancouver", 49, -123, 0, 50, 0, 35, 60, 6⟩

/-- Concrete configuration with negative rain threshold and zero wind
threshold. -/
def cfgNeg : Config :=
  ⟨"db", "from", "pw", "to", "Vancouver", 49, -123, -1, 0, 0, 35, 60, 6⟩

/-- Concrete configuration violating the threshold invariant: the
low-temperature threshold 50 is above the high-temperature threshold 35,
while all four required credential strings are present. -/
def cfgBad : Config :=
  ⟨"db", "from", "pw", "to", "Vancouver", 49, -123, 10, 50, 50, 35, 60, 6⟩

/-- Reading with precipitation present and exactly 0, all else absent. -/
def wdZero : WeatherData := ⟨0, none, some (.num 0), none, none, none⟩

/-- Reading with precipitation and wind speed both present and exactly 0. -/
def wdZeros : WeatherData := ⟨0, none, some (.num 0), some (.num 0), none, none⟩

/-- Reading with precipitation exactly 10 (the default threshold). -/
def wdTen : WeatherData := ⟨0, none, some (.num 10), none, none, none⟩

/-- Reading with every optional field absent. -/
def wdAbsent : WeatherData := ⟨0, none, none, none, none, none⟩

/-- A concrete alert condition of kind HEAVY_RAIN. -/
def alert0 : AlertCondition := ⟨.HEAVY_RAIN, .HIGH, "msg"⟩

/-- A concrete alert_log row of kind HEAVY_RAIN at timestamp 0. -/
def entry0 : AlertLogEntry := ⟨0, .HEAVY_RAIN, .HIGH, "m", true⟩

end WeatherPipeline

namespace WeatherPipeline

lemma process_alert_filter (a : AlertCondition) (r : List AlertLogEntry)
    (s : Bool) :
    (process_alert a r s).filter Event.isInsert =
      [.insertLog a.kind a.severity a.message (r.isEmpty && s)] := by
  cases r <;> simp [process_alert, Event.isInsert, List.filter]

lemma flatMap_filter_insert (l : List AlertCondition)
    (recent : AlertType → List AlertLogEntry) (send : AlertCondition → Bool) :
    ((l.flatMap fun a => process_alert a (recent a.kind) (send a)).filter
        Event.isInsert) =
      l.map fun a =>
        Event.insertLog a.kind a.severity a.message
          ((recent a.kind).isEmpty && send a) := by
  induction l with
  | nil => rfl
  | cons a t ih =>
    simp only [List.flatMap_cons, List.filter_append, process_alert_filter,
      List.map_cons, ih, List.singleton_append]

lemma containsKind_append (k : AlertType) (l1 l2 : List AlertCondition) :
    containsKind k (l1 ++ l2) = (containsKind k l1 || containsKind k l2) := by
  simp [containsKind]

lemma rain_kind_ne (wd : WeatherData) (cfg : Config) (k : AlertType)
    (h : k ≠ .HEAVY_RAIN) : containsKind k (rainAlerts wd cfg) = false := by
  unfold rainAlerts containsKind
  split
  · rfl
  · split
    · simp only [List.any_cons, List.any_nil, Bool.or_false]
      exact decide_eq_false (Ne.symm h)
    · rfl

lemma wind_kind_ne (wd : WeatherData) (cfg : Config) (k : AlertType)
    (h : k ≠ .STRONG_WIND) : containsKind k (windAlerts wd cfg) = false := by
  unfold windAlerts containsKind
  split
  · rfl
  · split
    · simp only [List.any_cons, List.any_nil, Bool.or_false]
      exact decide_eq_false (Ne.symm h)
    · rfl

lemma temp_kind_ne (wd : WeatherData) (cfg : Config) (k : AlertType)
    (h1 : k ≠ .EXTREME_COLD) (h2 : k ≠ .EXTREME_HEAT) :
    containsKind k (tempAlerts wd cfg) = false := by
  unfold tempAlerts containsKind
  split
  · rfl
  · split
    · simp only [List.any_cons, List.any_nil, Bool.or_false]
      exact decide_eq_false (Ne.symm h1)
    · split
      · simp only [List.any_cons, List.any_nil, Bool.or_false]
        exact decide_eq_false (Ne.symm h2)
      · rfl

lemma contains_rain (wd : WeatherData) (cfg : Config) :
    containsKind .HEAVY_RAIN (computeAlerts wd cfg) =
      containsKind .HEAVY_RAIN (rainAlerts wd cfg) := by
  simp [computeAlerts, containsKind_append,
    wind_kind_ne wd cfg .HEAVY_RAIN (by decide),
    temp_kind_ne wd cfg .HEAVY_RAIN (by decide) (by decide)]

lemma contains_wind (wd : WeatherData) (cfg : Config) :
    containsKind .STRONG_WIND (computeAlerts wd cfg) =
      containsKind .STRONG_WIND (windAlerts wd cfg) := by
  simp [computeAlerts, containsKind_append,
    rain_kind_ne wd cfg .STRONG_WIND (by decide),
    temp_kind_ne wd cfg .STRONG_WIND (by decide) (by decide)]

lemma contains_cold (wd : WeatherData) (cfg : Config) :
    containsKind .EXTREME_COLD (computeAlerts wd cfg) =
      containsKind .EXTREME_COLD (tempAlerts wd cfg) := by
  simp [computeAlerts, containsKind_append,
    rain_kind_ne wd cfg .EXTREME_COLD (by decide),
    wind_kind_ne wd cfg .EXTREME_COLD (by decide)]

lemma contains_heat (wd : WeatherData) (cfg : Config) :
    containsKind .EXTREME_HEAT (computeAlerts wd cfg) =
      containsKind .EXTREME_HEAT (tempAlerts wd cfg) := by
  simp [computeAlerts, containsKind_append,
    rain_kind_ne wd cfg .EXTREME_HEAT (by decide),
    wind_kind_ne wd cfg .EXTREME_HEAT (by decide)]

lemma wind_filter_rain (wd : WeatherData) (cfg : Config) :
    (windAlerts wd cfg).filter
        (fun a => decide (a.kind = AlertType.HEAVY_RAIN)) = [] := by
  unfold windAlerts
  split
  · rfl
  · split <;> simp

lemma temp_filter_rain (wd : WeatherData) (cfg : Config) :
    (tempAlerts wd cfg).filter
        (fun a => decide (a.kind = AlertType.HEAVY_RAIN)) = [] := by
  unfold tempAlerts
  split
  · rfl
  · split
    · simp
    · split <;> simp

/-- C1: for every condition returned by threshold evaluation in a cycle,
the dispatcher makes exactly one `insert_alert_log` call, unconditionally:
the insert-call subtrace of the cycle is in one-to-one ordered
correspondence with the evaluated conditions, and each call carries
`email_sent = false` when the cooldown query was non-empty, and otherwise
exactly the notifier's success boolean — so a notifier failure never
suppresses the audit record. -/
theorem audit_exactly_one_insert (wd : WeatherData) (cfg : Config)
    (recent : AlertType → List AlertLogEntry) (send : AlertCondition → Bool) :
    (check_and_send_alerts wd cfg recent send).filter Event.isInsert =
      (computeAlerts wd cfg).map fun a =>
        Event.insertLog a.kind a.severity a.message
          ((recent a.kind).isEmpty && send a) := by
  unfold check_and_send_alerts
  exact flatMap_filter_insert (computeAlerts wd cfg) recent send

/-- C2: when the cooldown query returns a non-empty collection, the
dispatcher's whole trace for that condition is a single
`insert_alert_log` call with `email_sent = false` — in particular the
Notifier is not invoked. -/
theorem cooldown_skip_logs_false (a : AlertCondition)
    (r : List AlertLogEntry) (s : Bool) (h : r ≠ []) :
    process_alert a r s =
      [.insertLog a.kind a.severity a.message false] := by
  cases r with
  | nil => exact absurd rfl h
  | cons e t => rfl

/-- Witness for C2 at a concrete condition and a one-element cooldown
collection. -/
theorem cooldown_skip_logs_false_witness :
    process_alert alert0 [entry0] true =
      [.insertLog alert0.kind alert0.severity alert0.message false] :=
  cooldown_skip_logs_false alert0 [entry0] true (List.cons_ne_nil _ _)

/-- C3 counterexample: precipitation present and exactly 0 with a
heavy-rain threshold of 0: the value is greater than or equal to the
threshold, yet evaluation returns no HEAVY_RAIN condition, refuting the
claimed if-and-only-if. -/
theorem rain_threshold_iff_cex :
    wdZero.precipitation = some (.num 0) ∧
    (0 : ℚ) ≥ cfgZero.HEAVY_RAIN_THRESHOLD ∧
    containsKind .HEAVY_RAIN (computeAlerts wdZero cfgZero) = false :=
  ⟨rfl, by norm_num [cfgZero], by decide⟩

/-- C3 amended: for a reading whose precipitation is present with value v,
evaluation returns a HEAVY_RAIN condition (severity HIGH, and exactly one)
if and only if v is nonzero and v is greater than or equal to the
heavy-rain threshold; in particular a nonzero value exactly equal to the
threshold triggers (inclusive boundary). -/
theorem rain_threshold_iff_amended (wd : WeatherData) (cfg : Config)
    (v : ℚ) (h : wd.precipitation = some (.num v)) :
    (computeAlerts wd cfg).filter
        (fun a => decide (a.kind = AlertType.HEAVY_RAIN)) =
      if v ≠ 0 ∧ v ≥ cfg.HEAVY_RAIN_THRESHOLD then
        [⟨.HEAVY_RAIN, .HIGH, rainMsg v cfg⟩]
      else [] := by
  unfold computeAlerts
  rw [List.filter_append, List.filter_append, wind_filter_rain,
    temp_filter_rain]
  simp only [List.append_nil]
  unfold rainAlerts
  rw [h]
  simp only [Option.getD_some]
  by_cases hc : v ≠ 0 ∧ v ≥ cfg.HEAVY_RAIN_THRESHOLD <;> simp [hc]

/-- Witness for C3 amended: precipitation exactly 10 with the default
threshold 10 triggers HEAVY_RAIN (inclusive boundary). -/
theorem rain_threshold_iff_amended_witness :
    (computeAlerts wdTen cfg0).filter
        (fun a => decide (a.kind = AlertType.HEAVY_RAIN)) =
      [⟨.HEAVY_RAIN, .HIGH, rainMsg 10 cfg0⟩] := by
  rw [rain_threshold_iff_amended wdTen cfg0 10 rfl]
  decide

/-- C4: a missing (absent, or present-as-None) field never triggers its
condition, regardless of the configured thresholds. -/
theorem missing_never_triggers (wd : WeatherData) (cfg : Config) :
    ((wd.precipitation = none ∨ wd.precipitation = some .null) →
      containsKind .HEAVY_RAIN (computeAlerts wd cfg) = false)
    ∧ ((wd.wind_speed = none ∨ wd.wind_speed = some .null) →
      containsKind .STRONG_WIND (computeAlerts wd cfg) = false)
    ∧ ((wd.temperature = none ∨ wd.temperature = some .null) →
      containsKind .EXTREME_COLD (computeAlerts wd cfg) = false ∧
      containsKind .EXTREME_HEAT (computeAlerts wd cfg) = false) := by
  refine ⟨fun h => ?_, fun h => ?_, fun h => ?_⟩
  · rw [contains_rain]
    rcases h with h | h <;> simp [rainAlerts, containsKind, h]
  · rw [contains_wind]
    rcases h with h | h <;> simp [windAlerts, containsKind, h]
  · rw [contains_cold, contains_heat]
    rcases h with h | h <;>
      exact ⟨by simp [tempAlerts, containsKind, h],
             by simp [tempAlerts, containsKind, h]⟩

/-- Witness for C4 at a reading with every optional field absent. -/
theorem missing_never_triggers_witness :
    containsKind .HEAVY_RAIN (computeAlerts wdAbsent cfg0) = false ∧
    containsKind .STRONG_WIND (computeAlerts wdAbsent cfg0) = false ∧
    containsKind .EXTREME_COLD (computeAlerts wdAbsent cfg0) = false ∧
    containsKind .EXTREME_HEAT (computeAlerts wdAbsent cfg0) = false :=
  ⟨(missing_never_triggers wdAbsent cfg0).1 (Or.inl rfl),
   (missing_never_triggers wdAbsent cfg0).2.1 (Or.inl rfl),
   ((missing_never_triggers wdAbsent cfg0).2.2 (Or.inl rfl)).1,
   ((missing_never_triggers wdAbsent cfg0).2.2 (Or.inl rfl)).2⟩

/-- C5: a single evaluation never returns both EXTREME_COLD and
EXTREME_HEAT: the low check is an `if` evaluated before the high check's
`elif`, so at most one temperature condition fires. -/
theorem temp_conditions_mutually_exclusive (wd : WeatherData) (cfg : Config) :
    (containsKind .EXTREME_COLD (computeAlerts wd cfg) &&
      containsKind .EXTREME_HEAT (computeAlerts wd cfg)) = false := by
  rw [contains_cold, contains_heat]
  unfold tempAlerts
  split
  · rfl
  · split
    · simp [containsKind]
    · split <;> simp [containsKind]

/-- C6: the cooldown window is `(now - cooldownHours, now]`.  With the
alert_log table holding one prior entry of the dispatched kind at time T
and cooldown H, a dispatch strictly before T + H does not notify, while a
dispatch at or after exactly T + H does notify. -/
theorem cooldown_window_boundary (e : AlertLogEntry) (a : AlertCondition)
    (H : ℤ) (now : ℚ) (s : Bool) (hk : e.alert_type = a.kind) :
    (now < e.timestamp + (H : ℚ) →
      notified (process_alert a
        (get_recent_alerts (.ok (recentAlertsQuery [e] a.kind H now))) s)
        = false)
    ∧ (e.timestamp + (H : ℚ) ≤ now →
      notified (process_alert a
        (get_recent_alerts (.ok (recentAlertsQuery [e] a.kind H now))) s)
        = true) := by
  constructor
  · intro hlt
    have hq : recentAlertsQuery [e] a.kind H now = [e] := by
      have hin : now - (H : ℚ) < e.timestamp := by linarith
      simp [recentAlertsQuery, hk, hin]
    rw [hq]
    rfl
  · intro hge
    have hq : recentAlertsQuery [e] a.kind H now = [] := by
      have hout : ¬(now - (H : ℚ) < e.timestamp) := by
        intro hcon
        linarith
      simp [recentAlertsQuery, hout]
    rw [hq]
    rfl

/-- Witness for C6: prior HEAVY_RAIN entry at time 0, cooldown 6 hours;
dispatching at time 5 does not notify, dispatching at time 6 does. -/
theorem cooldown_window_boundary_witness :
    notified (process_alert alert0
      (get_recent_alerts (.ok (recentAlertsQuery [entry0] alert0.kind 6 5)))
      true) = false ∧
    notified (process_alert alert0
      (get_recent_alerts (.ok (recentAlertsQuery [entry0] alert0.kind 6 6)))
      true) = true :=
  ⟨(cooldown_window_boundary entry0 alert0 6 5 true rfl).1
      (by norm_num [entry0]),
   (cooldown_window_boundary entry0 alert0 6 6 true rfl).2
      (by norm_num [entry0])⟩

/-- C7 counterexample: a configuration whose low-temperature threshold 50
is at or above its high-temperature threshold 35 still passes
`Config.validate` — the only validation in the code — so the violation is
not detected at startup. -/
theorem validate_accepts_violating_config :
    cfgBad.EXTREME_TEMP_HIGH ≤ cfgBad.EXTREME_TEMP_LOW ∧
    cfgBad.validate = true :=
  ⟨by norm_num [cfgBad], by decide⟩

/-- C7 amended: startup does not fail fast on a threshold-invariant
violation: `Config.validate` checks only the four required credential
strings and its result is unchanged under any assignment of the
low/high-temperature thresholds, so a configuration with low at or above
high is never rejected before cycles run. -/
theorem validate_ignores_temp_thresholds (c : Config) (lo hi : ℚ) :
    ({ c with EXTREME_TEMP_LOW := lo, EXTREME_TEMP_HIGH := hi } :
      Config).validate = c.validate := rfl

/-- C8: when the cooldown query raises, `get_recent_alerts` returns the
empty list, and the dispatcher therefore treats the condition as
cooldown-inactive: it invokes the Notifier and logs the send outcome. -/
theorem query_failure_treated_as_no_recent (msg : String)
    (a : AlertCondition) (s : Bool) :
    get_recent_alerts (.error msg) = [] ∧
    process_alert a (get_recent_alerts (.error msg)) s =
      [.notifierSend a, .insertLog a.kind a.severity a.message s] :=
  ⟨rfl, rfl⟩

/-- C9: when the weather fetch fails (`get_current_weather` returns None),
the cycle returns False with an empty trace: no reading is stored, no
condition is evaluated or dispatched, and the failure is reported by the
boolean result rather than by terminating the process. -/
theorem fetch_failure_aborts_cycle (cfg : Config) (storeOk : Bool)
    (recent : AlertType → List AlertLogEntry)
    (send : AlertCondition → Bool) :
    run_pipeline cfg none storeOk recent send = (false, []) := rfl

/-- C10: a precipitation (or wind speed) value present and exactly 0 never
triggers HEAVY_RAIN (respectively STRONG_WIND), for every configuration —
including thresholds that are 0 or negative, where the inclusive
comparison alone would hold — because zero is falsy in the truthiness
guard, like an absent field. -/
theorem zero_value_never_triggers (wd : WeatherData) (cfg : Config) :
    (wd.precipitation = some (.num 0) →
      containsKind .HEAVY_RAIN (computeAlerts wd cfg) = false)
    ∧ (wd.wind_speed = some (.num 0) →
      containsKind .STRONG_WIND (computeAlerts wd cfg) = false) := by
  constructor
  · intro h
    rw [contains_rain]
    simp [rainAlerts, containsKind, h]
  · intro h
    rw [contains_wind]
    simp [windAlerts, containsKind, h]

/-- Witness for C10: zero precipitation against a negative rain threshold
and zero wind speed against a zero wind threshold trigger nothing. -/
theorem zero_value_never_triggers_witness :
    containsKind .HEAVY_RAIN (computeAlerts wdZeros cfgNeg) = false ∧
    containsKind .STRONG_WIND (computeAlerts wdZeros cfgNeg) = false :=
  ⟨(zero_value_never_triggers wdZeros cfgNeg).1 rfl,
   (zero_value_never_triggers wdZeros cfgNeg).2 rfl⟩

end WeatherPipeline
